import Mathlib

/-!
Verification of the deploy tool (`main.go`): a shallow embedding of the
Kubernetes rollout-monitoring core and the Jenkins build gate, with theorems
about pod health evaluation, pod classification, the convergence / failure /
timeout state machine, and the orchestration order.

Time is modelled as an absolute clock in seconds (`Int`); `time.Now()` at a
sample point becomes an explicit `now` argument.  Kubernetes string-typed
constants (`corev1.PodReady = "Ready"`, `corev1.ConditionTrue = "True"`) are
kept as strings.
-/

namespace Deploy

/-- `corev1.PodPhase` values used by the program. -/
inductive PodPhase
  | pending
  | running
  | succeeded
  | failed
  | unknown
deriving DecidableEq, Repr

/-- `corev1.ContainerStateWaiting`: reason and message. -/
structure WaitingState where
  reason : String
  message : String
deriving DecidableEq, Repr

/-- `corev1.ContainerStateTerminated`: reason, message and the `FinishedAt`
timestamp.  `finishedAt = none` models a zero `metav1.Time`
(`FinishedAt.IsZero()` in Go); `some t` a recorded absolute time `t`. -/
structure TerminatedState where
  reason : String
  message : String
  finishedAt : Option Int
deriving DecidableEq, Repr

/-- `corev1.ContainerStatus` restricted to the fields the program reads:
`Name`, `Ready`, `RestartCount`, `State.Waiting`, `State.Terminated`,
`LastTerminationState.Terminated`. -/
structure ContainerStatus where
  name : String
  ready : Bool
  restartCount : Nat
  waiting : Option WaitingState
  terminated : Option TerminatedState
  lastTerminated : Option TerminatedState
deriving DecidableEq, Repr

/-- `corev1.PodCondition` restricted to `Type` and `Status`. -/
structure PodCondition where
  condType : String
  status : String
deriving DecidableEq, Repr

/-- A pod as the program reads it: `Name`, `UID`, the revision annotation
map (`Annotations`), and `Status` (`Phase`, `Conditions`,
`ContainerStatuses`). -/
structure Pod where
  name : String
  uid : String
  annotMap : List (String × String)
  phase : PodPhase
  conditions : List PodCondition
  containerStatuses : List ContainerStatus
deriving DecidableEq, Repr

/-- Go map indexing with a string key: the stored value, or `""` when the
key is absent. -/
def lookupAnnot (m : List (String × String)) (k : String) : String :=
  match m.find? (fun kv => kv.1 == k) with
  | some kv => kv.2
  | none => ""

/-- `pod.Annotations["deployment.kubernetes.io/revision"]` as read in
`categorizePods`. -/
def podRevision (pod : Pod) : String :=
  lookupAnnot pod.annotMap "deployment.kubernetes.io/revision"

/-- `timeFromLastRestart`: seconds from the container's last recorded
termination to `now`, or the sentinel `1000` when
`LastTerminationState.Terminated` is nil or its `FinishedAt` is the zero
time. -/
def timeFromLastRestart (now : Int) (cs : ContainerStatus) : Int :=
  match cs.lastTerminated with
  | some t =>
    match t.finishedAt with
    | some ft => now - ft
    | none => 1000
  | none => 1000

/-- `isPodReadyAndHealthy`: running phase, no Ready condition that is not
`"True"`, and every container ready, not in a restart storm
(`RestartCount > 3` with last restart under 60 seconds ago), and not in a
waiting state. -/
def isPodReadyAndHealthy (now : Int) (pod : Pod) : Bool :=
  (pod.phase == PodPhase.running) &&
  pod.conditions.all (fun c => !(c.condType == "Ready" && c.status != "True")) &&
  pod.containerStatuses.all (fun cs =>
    cs.ready &&
    !(decide (cs.restartCount > 3) && decide (timeFromLastRestart now cs < 60)) &&
    cs.waiting.isNone)

/-- `isPodReady`: the status of the first `Ready` condition, `false` when
none is present. -/
def isPodReady (pod : Pod) : Bool :=
  match pod.conditions.find? (fun c => c.condType == "Ready") with
  | some c => c.status == "True"
  | none => false

/-- `areAllContainersReady`: false on an empty container-status list,
otherwise every container's ready flag. -/
def areAllContainersReady (pod : Pod) : Bool :=
  !pod.containerStatuses.isEmpty &&
  pod.containerStatuses.all (fun cs => cs.ready)

/-- `countReadyAndHealthyPods`. -/
def countReadyAndHealthyPods (now : Int) (pods : List Pod) : Nat :=
  pods.countP (fun pod => isPodReadyAndHealthy now pod)

/-- `hasCrashLoopBackOff`: some container waiting with reason
`CrashLoopBackOff`. -/
def hasCrashLoopBackOff (pod : Pod) : Bool :=
  pod.containerStatuses.any (fun cs =>
    match cs.waiting with
    | some w => w.reason == "CrashLoopBackOff"
    | none => false)

/-- `findErrorPods`: pods in phase Failed or Unknown, or with a
crash-looping container. -/
def findErrorPods (pods : List Pod) : List Pod :=
  pods.filter (fun pod =>
    pod.phase == PodPhase.failed ||
    pod.phase == PodPhase.unknown ||
    hasCrashLoopBackOff pod)

/-- `getPodStatus`: the phase as a string. -/
def getPodStatus (pod : Pod) : String :=
  match pod.phase with
  | PodPhase.pending => "Pending"
  | PodPhase.running => "Running"
  | PodPhase.succeeded => "Succeeded"
  | PodPhase.failed => "Failed"
  | PodPhase.unknown => "Unknown"

/-- `getPodErrorMessage` over the container-status list: first non-empty
waiting message, else first non-empty terminated message, per container in
order. -/
def firstErrorMessage : List ContainerStatus → Option String
  | [] => none
  | cs :: rest =>
    match cs.waiting with
    | some w =>
      if w.message != "" then some w.message
      else
        match cs.terminated with
        | some t => if t.message != "" then some t.message else firstErrorMessage rest
        | none => firstErrorMessage rest
    | none =>
      match cs.terminated with
      | some t => if t.message != "" then some t.message else firstErrorMessage rest
      | none => firstErrorMessage rest

/-- `getPodErrorMessage`. -/
def getPodErrorMessage (pod : Pod) : String :=
  match firstErrorMessage pod.containerStatuses with
  | some m => m
  | none => "No error message found"

/-- `categorizePodsByUID`: split the pod list into (new, old); a pod whose
UID is in the initial snapshot is old, otherwise new.  The snapshot map
`map[string]bool` is built in `getCurrentDeploymentStatus` with only `true`
values, so it is a set of UIDs. -/
def categorizePodsByUID : List Pod → List String → List Pod × List Pod
  | [], _ => ([], [])
  | pod :: rest, uids =>
    let no := categorizePodsByUID rest uids
    if uids.contains pod.uid then (no.1, pod :: no.2)
    else (pod :: no.1, no.2)

/-- Lexicographic order on character lists, the order Go's `<` gives on
strings (byte-wise comparison, which on valid UTF-8 agrees with code-point
order). -/
def charListLt : List Char → List Char → Bool
  | [], [] => false
  | [], _ :: _ => true
  | _ :: _, [] => false
  | a :: as, b :: bs =>
    if a < b then true
    else if b < a then false
    else charListLt as bs

/-- Go string comparison `a < b`. -/
def goStringLt (a b : String) : Bool := charListLt a.data b.data

/-- `categorizePods`: the revision-annotation classifier; a pod is new when
its revision annotation compares strictly greater than the initial revision
under Go string comparison (lexicographic). -/
def categorizePods : List Pod → String → List Pod × List Pod
  | [], _ => ([], [])
  | pod :: rest, initialRevision =>
    let no := categorizePods rest initialRevision
    if goStringLt initialRevision (podRevision pod) then (pod :: no.1, no.2)
    else (no.1, pod :: no.2)

/-! ## The rollout monitor state machine (`monitorPodRollout`) -/

/-- The deployment fields read each cycle: `*Spec.Replicas` (the desired
count) and `Status.UnavailableReplicas`. -/
structure DeploymentStatus where
  replicas : Nat
  unavailableReplicas : Nat
deriving DecidableEq, Repr

/-- What one poll cycle observes from the cluster: the freshly fetched
deployment, the pod list, and the sampling clock; plus the second pod list
and clock of the stability re-sample, consumed only when the cycle enters
the 10-second stability hold. -/
structure PollObs where
  dep : DeploymentStatus
  pods : List Pod
  now : Int
  stabilityPods : List Pod
  stabilityNow : Int
deriving Repr

/-- Outcome of one poll cycle of the loop body. -/
inductive StepResult
  | converged
  | failed
  | continueWatching
deriving DecidableEq, Repr

/-- One poll cycle's result together with the per-pod diagnostics
(name, status, error message) printed on the failure exit. -/
structure StepOut where
  result : StepResult
  diags : List (String × String × String)
deriving DecidableEq, Repr

/-- The failure check at the bottom of the loop body: past the 10-cycle
grace period with unavailable replicas, exit failed when some new pod is
errored, printing each errored pod's name, status and message. -/
def failureCheck (dep : DeploymentStatus) (newPods : List Pod) (retries : Nat) : StepOut :=
  if dep.unavailableReplicas > 0 ∧ retries > 10 then
    if findErrorPods newPods ≠ [] then
      ⟨StepResult.failed,
       (findErrorPods newPods).map
         (fun pod => (pod.name, getPodStatus pod, getPodErrorMessage pod))⟩
    else ⟨StepResult.continueWatching, []⟩
  else ⟨StepResult.continueWatching, []⟩

/-- The body of one poll cycle, after the sleep and the counter increment:
classify pods against the UID snapshot, check convergence
(`readyNewPods == *deployment.Spec.Replicas && len(oldPods) == 0`); on
convergence, hold 10 seconds, re-sample, and succeed when the re-sampled
healthy-new count again equals the desired count — the re-sampled old pods
are discarded (`newPods, _ = categorizePodsByUID(...)`).  When the re-check
fails, fall through to the failure check with the re-sampled new pods. -/
def pollStep (uids : List String) (obs : PollObs) (retries : Nat) : StepOut :=
  if countReadyAndHealthyPods obs.now (categorizePodsByUID obs.pods uids).1 =
       obs.dep.replicas ∧
     (categorizePodsByUID obs.pods uids).2.length = 0 then
    if countReadyAndHealthyPods obs.stabilityNow
         (categorizePodsByUID obs.stabilityPods uids).1 = obs.dep.replicas
    then ⟨StepResult.converged, []⟩
    else failureCheck obs.dep (categorizePodsByUID obs.stabilityPods uids).1 retries
  else failureCheck obs.dep (categorizePodsByUID obs.pods uids).1 retries

/-- Terminal verdicts of `monitorPodRollout`. -/
inductive RolloutVerdict
  | converged
  | failed
  | timedOut
deriving DecidableEq, Repr

/-- `maxRetries := 120`. -/
def maxRetries : Nat := 120

/-- The monitoring loop from a given retry count: at the top of each
iteration, exit timed-out when `retries >= maxRetries`; otherwise sleep,
increment the counter, run the cycle body on that cycle's observation, and
either exit with a terminal verdict or loop.  `obs r` is what the cluster
returns on the poll whose counter value is `r`. -/
def monitorFrom (uids : List String) (obs : Nat → PollObs) (retries : Nat) : RolloutVerdict :=
  if retries ≥ maxRetries then RolloutVerdict.timedOut
  else
    match (pollStep uids (obs (retries + 1)) (retries + 1)).result with
    | StepResult.converged => RolloutVerdict.converged
    | StepResult.failed => RolloutVerdict.failed
    | StepResult.continueWatching => monitorFrom uids obs (retries + 1)
termination_by maxRetries - retries
decreasing_by simp_wf; omega

/-- `monitorPodRollout`: the loop started with `retries = 0`. -/
def monitorPodRollout (uids : List String) (obs : Nat → PollObs) : RolloutVerdict :=
  monitorFrom uids obs 0

/-! ## The build gate (`BuildJenkinsJob` and `main`) -/

/-- The terminal state of a Jenkins build as the program reads it:
`IsGood`, the console output, and the result label. -/
structure BuildHandle where
  isGood : Bool
  console : String
  result : String
deriving Repr

/-- `BuildJenkinsJob` after the build reaches a terminal state: on a good
build return success; otherwise print the console output framed by failure
markers and abort fatally (`log.Fatalf`), modelled as `Except.error`
carrying the printed text. -/
def buildJenkinsJob (b : BuildHandle) : Except String Bool :=
  if b.isGood then Except.ok true
  else
    Except.error
      ("=============Build Failed Log=============\n" ++ b.console ++
       "\n=============Build Failed Log=============\n" ++
       "Build failed: " ++ b.result)

/-- Terminal outcome of one invocation of `main` after the snapshot was
captured: a fatal build failure carrying the printed log, or the rollout
monitor's verdict. -/
inductive RunOutcome
  | buildFailure (log : String)
  | rollout (v : RolloutVerdict)
deriving Repr

/-- The tail of `main`: run `BuildJenkinsJob`; on failure abort with the
build-failure verdict, and only on success invoke `monitorPodRollout`. -/
def runDeploy (b : BuildHandle) (uids : List String) (obs : Nat → PollObs) : RunOutcome :=
  match buildJenkinsJob b with
  | Except.error s => RunOutcome.buildFailure s
  | Except.ok _ => RunOutcome.rollout (monitorPodRollout uids obs)

/-! ## Concrete pods used in witnesses and counterexamples -/

/-- A container with restart count 4 whose last restart finished 3600
seconds before the sample clock 100000. -/
def csStormOld : ContainerStatus :=
  ⟨"app", true, 4, none, none, some ⟨"Error", "", some (100000 - 3600)⟩⟩

/-- A container with restart count 4 whose last restart finished 10
seconds before the sample clock 100000. -/
def csStormRecent : ContainerStatus :=
  ⟨"app", true, 4, none, none, some ⟨"Error", "", some (100000 - 10)⟩⟩

/-- A running, Ready pod holding `csStormOld`. -/
def podStormOld : Pod :=
  ⟨"pod-a", "uid-a", [], PodPhase.running, [⟨"Ready", "True"⟩], [csStormOld]⟩

/-- A running, Ready pod holding `csStormRecent`. -/
def podStormRecent : Pod :=
  ⟨"pod-b", "uid-b", [], PodPhase.running, [⟨"Ready", "True"⟩], [csStormRecent]⟩

/-- A pod carrying revision annotation `"10"`. -/
def podRevTen : Pod :=
  ⟨"pod-r10", "uid-r10", [("deployment.kubernetes.io/revision", "10")],
   PodPhase.running, [], []⟩

/-- A healthy new pod (running, no adverse conditions or statuses). -/
def podNew : Pod := ⟨"pod-n", "uid-n", [], PodPhase.running, [], []⟩

/-- An old pod, with the snapshot UID `"uid-old"`. -/
def podOldRemain : Pod := ⟨"pod-o", "uid-old", [], PodPhase.running, [], []⟩

/-- An observation that converges and whose stability re-sample confirms. -/
def obsStable : PollObs := ⟨⟨1, 0⟩, [podNew], 0, [podNew], 0⟩

/-- An observation that converges but whose stability re-sample still
contains an old pod. -/
def obsResampleOld : PollObs := ⟨⟨1, 0⟩, [podNew], 0, [podNew, podOldRemain], 0⟩

/-- A quiet observation: one desired replica, none running yet, nothing
unavailable. -/
def obsQuietA : PollObs := ⟨⟨1, 0⟩, [], 0, [], 0⟩

/-- A crash-looping container status. -/
def crashContainer : ContainerStatus :=
  ⟨"app", false, 7, some ⟨"CrashLoopBackOff", "back-off 5m restarting"⟩, none, none⟩

/-- A running pod stuck in CrashLoopBackOff. -/
def crashPod : Pod := ⟨"pod-c", "uid-c", [], PodPhase.running, [], [crashContainer]⟩

/-- An observation with one unavailable replica and a crash-looping new
pod. -/
def obsFail : PollObs := ⟨⟨1, 1⟩, [crashPod], 0, [], 0⟩

/-- A waiting observation: one desired replica, one unavailable, no pods
observed yet. -/
def obsWait : PollObs := ⟨⟨1, 1⟩, [], 0, [], 0⟩

/-- An observation where one healthy new pod reaches the desired count of
one while a second, crash-looping new pod is errored and a replica is
unavailable; the stability re-sample shows the same picture. -/
def obsPreempt : PollObs :=
  ⟨⟨1, 1⟩, [podNew, crashPod], 0, [podNew, crashPod], 0⟩

/-- A run that waits for ten polls and then shows `obsPreempt` from poll
11 on. -/
def obsCEx (r : Nat) : PollObs := if r ≤ 10 then obsWait else obsPreempt

/-- A container with a large restart count but no recorded last
termination. -/
def csNoRecord : ContainerStatus := ⟨"app", true, 99, none, none, none⟩

/-- A running, Ready pod with an empty container-status list. -/
def podNoContainers : Pod :=
  ⟨"pod-e", "uid-e", [], PodPhase.running, [⟨"Ready", "True"⟩], []⟩

/-- A failed Jenkins build. -/
def bFailEx : BuildHandle := ⟨false, "compile error", "FAILURE"⟩

/-! ## Helper definitions and lemmas -/

/-- Replace a pod's annotation map, leaving every status field alone. -/
def setPodAnnots (a : List (String × String)) (p : Pod) : Pod :=
  { p with annotMap := a }

/-- Replace every pod's annotation map in one poll observation. -/
def setObsAnnots (a : List (String × String)) (obs : PollObs) : PollObs :=
  { obs with pods := obs.pods.map (setPodAnnots a),
             stabilityPods := obs.stabilityPods.map (setPodAnnots a) }

/-- The convergence gate of one poll cycle, exactly the condition of the
`if` at the top of the loop body. -/
def convergenceGate (uids : List String) (obs : PollObs) : Prop :=
  countReadyAndHealthyPods obs.now (categorizePodsByUID obs.pods uids).1 = obs.dep.replicas ∧
  (categorizePodsByUID obs.pods uids).2.length = 0

instance (uids : List String) (obs : PollObs) : Decidable (convergenceGate uids obs) := by
  unfold convergenceGate
  infer_instance

theorem categorizePodsByUID_map_setAnnots (a : List (String × String)) :
    ∀ (pods : List Pod) (uids : List String),
      categorizePodsByUID (pods.map (setPodAnnots a)) uids =
        ((categorizePodsByUID pods uids).1.map (setPodAnnots a),
         (categorizePodsByUID pods uids).2.map (setPodAnnots a))
  | [], _ => rfl
  | pod :: rest, uids => by
    simp only [List.map_cons, categorizePodsByUID,
      categorizePodsByUID_map_setAnnots a rest uids]
    by_cases h : pod.uid ∈ uids
    · simp [setPodAnnots, h]
    · simp [setPodAnnots, h]

theorem countReadyAndHealthyPods_map_setAnnots (now : Int) (a : List (String × String))
    (pods : List Pod) :
    countReadyAndHealthyPods now (pods.map (setPodAnnots a)) =
      countReadyAndHealthyPods now pods := by
  simp only [countReadyAndHealthyPods, List.countP_map]
  rfl

theorem findErrorPods_map_setAnnots (a : List (String × String)) (pods : List Pod) :
    findErrorPods (pods.map (setPodAnnots a)) = (findErrorPods pods).map (setPodAnnots a) := by
  simp only [findErrorPods, List.filter_map]
  rfl

theorem failureCheck_map_setAnnots (dep : DeploymentStatus) (a : List (String × String))
    (pods : List Pod) (r : Nat) :
    failureCheck dep (pods.map (setPodAnnots a)) r = failureCheck dep pods r := by
  unfold failureCheck
  rw [findErrorPods_map_setAnnots]
  by_cases h : dep.unavailableReplicas > 0 ∧ r > 10
  · by_cases he : findErrorPods pods = []
    · simp [h, he]
    · have hm : (findErrorPods pods).map (setPodAnnots a) ≠ [] := by
        simpa using he
      rw [if_pos h, if_pos h, if_pos hm, if_pos he, List.map_map]
      rfl
  · simp [h]

theorem failureCheck_result_ne_converged (dep : DeploymentStatus) (pods : List Pod) (r : Nat) :
    (failureCheck dep pods r).result ≠ StepResult.converged := by
  unfold failureCheck
  split_ifs <;> simp

theorem failureCheck_result_iff (dep : DeploymentStatus) (pods : List Pod) (r : Nat) :
    (failureCheck dep pods r).result = StepResult.failed ↔
      (dep.unavailableReplicas > 0 ∧ r > 10 ∧ findErrorPods pods ≠ []) := by
  unfold failureCheck
  split_ifs with h1 h2 <;> simp_all

theorem failureCheck_diags_eq (dep : DeploymentStatus) (pods : List Pod) (r : Nat) :
    (failureCheck dep pods r).result = StepResult.failed →
    (failureCheck dep pods r).diags =
      (findErrorPods pods).map (fun pod => (pod.name, getPodStatus pod, getPodErrorMessage pod)) := by
  unfold failureCheck
  split_ifs <;> simp

theorem pollStep_of_gate (uids : List String) (obs : PollObs) (r : Nat)
    (h : convergenceGate uids obs) :
    pollStep uids obs r =
      if countReadyAndHealthyPods obs.stabilityNow
           (categorizePodsByUID obs.stabilityPods uids).1 = obs.dep.replicas
      then ⟨StepResult.converged, []⟩
      else failureCheck obs.dep (categorizePodsByUID obs.stabilityPods uids).1 r := by
  unfold convergenceGate at h
  unfold pollStep
  rw [if_pos h]

theorem pollStep_of_not_gate (uids : List String) (obs : PollObs) (r : Nat)
    (h : ¬convergenceGate uids obs) :
    pollStep uids obs r = failureCheck obs.dep (categorizePodsByUID obs.pods uids).1 r := by
  unfold convergenceGate at h
  unfold pollStep
  rw [if_neg h]

theorem monitorFrom_eq (uids : List String) (obs : Nat → PollObs) (retries : Nat) :
    monitorFrom uids obs retries =
      if retries ≥ maxRetries then RolloutVerdict.timedOut
      else
        match (pollStep uids (obs (retries + 1)) (retries + 1)).result with
        | StepResult.converged => RolloutVerdict.converged
        | StepResult.failed => RolloutVerdict.failed
        | StepResult.continueWatching => monitorFrom uids obs (retries + 1) := by
  rw [monitorFrom]

theorem monitorFrom_congr (uids : List String) (obs obs2 : Nat → PollObs) :
    ∀ (n k : Nat), maxRetries - k ≤ n →
      (∀ r, k < r → r ≤ maxRetries → obs r = obs2 r) →
      monitorFrom uids obs k = monitorFrom uids obs2 k := by
  intro n
  induction n with
  | zero =>
    intro k hk _
    have hge : k ≥ maxRetries := by omega
    rw [monitorFrom_eq uids obs k, monitorFrom_eq uids obs2 k, if_pos hge, if_pos hge]
  | succ n ih =>
    intro k hk hagree
    by_cases hge : k ≥ maxRetries
    · rw [monitorFrom_eq uids obs k, monitorFrom_eq uids obs2 k, if_pos hge, if_pos hge]
    · rw [monitorFrom_eq uids obs k, monitorFrom_eq uids obs2 k, if_neg hge, if_neg hge,
        hagree (k + 1) (by omega) (by omega)]
      cases hres : (pollStep uids (obs2 (k + 1)) (k + 1)).result with
      | converged => rfl
      | failed => rfl
      | continueWatching =>
        exact ih (k + 1) (by omega) (fun r hr hle => hagree r (by omega) hle)

theorem monitorFrom_timeout (uids : List String) (obs : Nat → PollObs) :
    ∀ (n k : Nat), maxRetries - k ≤ n →
      (∀ r, k < r → r ≤ maxRetries →
        (pollStep uids (obs r) r).result = StepResult.continueWatching) →
      monitorFrom uids obs k = RolloutVerdict.timedOut := by
  intro n
  induction n with
  | zero =>
    intro k hk _
    have hge : k ≥ maxRetries := by omega
    rw [monitorFrom_eq uids obs k, if_pos hge]
  | succ n ih =>
    intro k hk hcont
    by_cases hge : k ≥ maxRetries
    · rw [monitorFrom_eq uids obs k, if_pos hge]
    · rw [monitorFrom_eq uids obs k, if_neg hge, hcont (k + 1) (by omega) (by omega)]
      exact ih (k + 1) (by omega) (fun r hr hle => hcont r (by omega) hle)

theorem monitorFrom_converges_at (uids : List String) (obs : Nat → PollObs) :
    ∀ (n k m : Nat), m - k ≤ n → k ≤ m → m < maxRetries →
      (∀ r, k < r → r ≤ m →
        (pollStep uids (obs r) r).result = StepResult.continueWatching) →
      (pollStep uids (obs (m + 1)) (m + 1)).result = StepResult.converged →
      monitorFrom uids obs k = RolloutVerdict.converged := by
  intro n
  induction n with
  | zero =>
    intro k m hnm hkm hmr hcont hconv
    have hkm2 : k = m := by omega
    subst hkm2
    rw [monitorFrom_eq uids obs k, if_neg (by omega), hconv]
  | succ n ih =>
    intro k m hnm hkm hmr hcont hconv
    by_cases hk : k = m
    · subst hk
      rw [monitorFrom_eq uids obs k, if_neg (by omega), hconv]
    · rw [monitorFrom_eq uids obs k, if_neg (by omega),
        hcont (k + 1) (by omega) (by omega)]
      exact ih (k + 1) m (by omega) (by omega) hmr
        (fun r h1 h2 => hcont r (by omega) h2) hconv

/-! ## Theorems -/

/-- C4: `isPodReadyAndHealthy` flags a restart storm exactly when some
container has restart count strictly above 3 and its last restart was
strictly under 60 seconds before now; with every other rule passing the
pod is healthy iff no container triggers that conjunction.  Concretely,
restart count 4 with last restart 3600 s ago is healthy, and restart
count 4 with last restart 10 s ago is unhealthy. -/
theorem restartStorm_rule :
    (∀ (now : Int) (pod : Pod),
      pod.phase = PodPhase.running →
      (∀ c ∈ pod.conditions, ¬(c.condType = "Ready" ∧ c.status ≠ "True")) →
      (∀ cs ∈ pod.containerStatuses, cs.ready = true ∧ cs.waiting = none) →
      (isPodReadyAndHealthy now pod = true ↔
        ∀ cs ∈ pod.containerStatuses,
          ¬(cs.restartCount > 3 ∧ timeFromLastRestart now cs < 60)))
    ∧ isPodReadyAndHealthy 100000 podStormOld = true
    ∧ isPodReadyAndHealthy 100000 podStormRecent = false := by
  refine ⟨?_, by decide, by decide⟩
  intro now pod hphase hconds hcs
  simp only [isPodReadyAndHealthy, Bool.and_eq_true, List.all_eq_true, beq_iff_eq,
    Bool.not_eq_true', Bool.and_eq_false_iff, decide_eq_false_iff_not, not_lt, hphase,
    decide_eq_true_eq]
  constructor
  · rintro ⟨_, hall⟩ cs hmem
    have h2 := (hall cs hmem).1.2
    intro hc
    omega
  · intro hall
    refine ⟨⟨trivial, ?_⟩, ?_⟩
    · intro c hc
      have hcnd := hconds c hc
      by_cases hr : c.condType = "Ready"
      · right
        have hs : c.status = "True" := by tauto
        simp [hs]
      · left
        simp [hr]
    · intro cs hmem
      refine ⟨⟨(hcs cs hmem).1, ?_⟩, by simp [(hcs cs hmem).2]⟩
      have := hall cs hmem
      omega

/-- C9: when a container's last-termination state records no finish
timestamp, `timeFromLastRestart` returns the sentinel 1000, so the
restart-storm conjunction in `isPodReadyAndHealthy` is false for that
container whatever its restart count. -/
theorem restart_sentinel :
    ∀ (now : Int) (cs : ContainerStatus),
      (cs.lastTerminated = none ∨
        ∃ t, cs.lastTerminated = some t ∧ t.finishedAt = none) →
      timeFromLastRestart now cs = 1000 ∧
      (decide (cs.restartCount > 3) && decide (timeFromLastRestart now cs < 60)) = false := by
  intro now cs h
  have h1000 : timeFromLastRestart now cs = 1000 := by
    rcases h with h | ⟨t, ht, hfin⟩
    · simp [timeFromLastRestart, h]
    · simp [timeFromLastRestart, ht, hfin]
  refine ⟨h1000, ?_⟩
  simp [h1000]

/-- C10: a Running pod with an empty container-status list and no Ready
condition carrying a non-True status is counted healthy by
`isPodReadyAndHealthy`, yet `areAllContainersReady` rejects it: the two
readiness checks disagree on pods without container statuses. -/
theorem emptyContainers_disagreement :
    ∀ (now : Int) (pod : Pod),
      pod.phase = PodPhase.running →
      pod.containerStatuses = [] →
      (∀ c ∈ pod.conditions, ¬(c.condType = "Ready" ∧ c.status ≠ "True")) →
      isPodReadyAndHealthy now pod = true ∧ areAllContainersReady pod = false := by
  intro now pod hphase hempty hconds
  constructor
  · simp only [isPodReadyAndHealthy, hphase, hempty, Bool.and_eq_true, List.all_eq_true,
      List.not_mem_nil, false_implies, implies_true, and_true, beq_iff_eq,
      Bool.not_eq_true', Bool.and_eq_false_iff, true_and]
    intro c hc
    have hcnd := hconds c hc
    by_cases hr : c.condType = "Ready"
    · right
      have hs : c.status = "True" := by tauto
      simp [hs]
    · left
      simp [hr]
  · simp [areAllContainersReady, hempty]

/-- C7: `categorizePods` compares revision markers with Go's lexicographic
string order, so a pod whose revision `"10"` is numerically greater than
the initial revision `"9"` is still classified old. -/
theorem lexicographic_revision_misorder :
    podRevision podRevTen = "10" ∧
    Nat.repr 9 = "9" ∧ Nat.repr 10 = "10" ∧ (9 : Nat) < 10 ∧
    goStringLt "9" "10" = false ∧
    categorizePods [podRevTen] "9" = ([], [podRevTen]) := by
  decide

/-- C2: a poll cycle's verdict is converged exactly when the healthy-new
count equals the desired replica count and the old-pod count is zero
simultaneously (and the stability re-sample confirms the count); in
particular a poll with all new pods healthy but an old pod remaining, or
with no old pods but a count mismatch, never converges. -/
theorem convergence_requires_both :
    ∀ (uids : List String) (obs : PollObs) (r : Nat),
      (pollStep uids obs r).result = StepResult.converged ↔
        (countReadyAndHealthyPods obs.now (categorizePodsByUID obs.pods uids).1 =
           obs.dep.replicas ∧
         (categorizePodsByUID obs.pods uids).2.length = 0 ∧
         countReadyAndHealthyPods obs.stabilityNow
           (categorizePodsByUID obs.stabilityPods uids).1 = obs.dep.replicas) := by
  intro uids obs r
  by_cases h : convergenceGate uids obs
  · rw [pollStep_of_gate uids obs r h]
    by_cases h2 : countReadyAndHealthyPods obs.stabilityNow
        (categorizePodsByUID obs.stabilityPods uids).1 = obs.dep.replicas
    · rw [if_pos h2]
      exact ⟨fun _ => ⟨h.1, h.2, h2⟩, fun _ => rfl⟩
    · rw [if_neg h2]
      simp only [h2, and_false, iff_false]
      exact failureCheck_result_ne_converged obs.dep _ r
  · rw [pollStep_of_not_gate uids obs r h]
    constructor
    · intro hc
      exact absurd hc (failureCheck_result_ne_converged obs.dep _ r)
    · intro hc
      exact absurd ⟨hc.1, hc.2.1⟩ h

/-- C6: `categorizePodsByUID` is pure set membership on UIDs — old pods
are exactly those whose UID is in the snapshot, new pods exactly those
whose UID is absent, each pod's side depending only on its own UID (the
two components are filters), stable under permutation of the pod list —
and the poll cycle is invariant under arbitrary changes of the pods'
revision annotations, so UID membership, not revision comparison, drives
its decisions. -/
theorem uid_classification :
    (∀ (pods : List Pod) (uids : List String),
      (categorizePodsByUID pods uids).1 = pods.filter (fun p => !(uids.contains p.uid)) ∧
      (categorizePodsByUID pods uids).2 = pods.filter (fun p => uids.contains p.uid)) ∧
    (∀ (pods : List Pod) (uids : List String) (p : Pod),
      (p ∈ (categorizePodsByUID pods uids).2 ↔ p ∈ pods ∧ uids.contains p.uid = true) ∧
      (p ∈ (categorizePodsByUID pods uids).1 ↔ p ∈ pods ∧ uids.contains p.uid = false)) ∧
    (∀ (pods pods2 : List Pod) (uids : List String), pods.Perm pods2 →
      ((categorizePodsByUID pods uids).1.Perm (categorizePodsByUID pods2 uids).1 ∧
       (categorizePodsByUID pods uids).2.Perm (categorizePodsByUID pods2 uids).2)) ∧
    (∀ (uids : List String) (a : List (String × String)) (obs : PollObs) (r : Nat),
      pollStep uids (setObsAnnots a obs) r = pollStep uids obs r) := by
  have hfilter : ∀ (pods : List Pod) (uids : List String),
      (categorizePodsByUID pods uids).1 = pods.filter (fun p => !(uids.contains p.uid)) ∧
      (categorizePodsByUID pods uids).2 = pods.filter (fun p => uids.contains p.uid) := by
    intro pods uids
    induction pods with
    | nil => exact ⟨rfl, rfl⟩
    | cons pod rest ih =>
      simp only [categorizePodsByUID, List.filter_cons]
      by_cases h : pod.uid ∈ uids
      · simp [h, ih.1, ih.2]
      · simp [h, ih.1, ih.2]
  refine ⟨hfilter, ?_, ?_, ?_⟩
  · intro pods uids p
    constructor
    · rw [(hfilter pods uids).2]
      simp [List.mem_filter]
    · rw [(hfilter pods uids).1]
      simp [List.mem_filter]
  · intro pods pods2 uids hperm
    rw [(hfilter pods uids).1, (hfilter pods uids).2,
      (hfilter pods2 uids).1, (hfilter pods2 uids).2]
    exact ⟨hperm.filter _, hperm.filter _⟩
  · intro uids a obs r
    unfold pollStep setObsAnnots
    simp only [categorizePodsByUID_map_setAnnots, countReadyAndHealthyPods_map_setAnnots,
      List.length_map, failureCheck_map_setAnnots]

/-- Closed instance of `uid_classification`: swapping the order of two
observed pods permutes, but does not change, the old-pod classification. -/
theorem uid_classification_witness :
    ((categorizePodsByUID [podStormOld, podStormRecent] ["uid-b"]).2).Perm
      ((categorizePodsByUID [podStormRecent, podStormOld] ["uid-b"]).2) :=
  (uid_classification.2.2.1 [podStormOld, podStormRecent]
    [podStormRecent, podStormOld] ["uid-b"] (List.Perm.swap _ _ _)).2

/-- C3 (amended): a poll cycle fails only past the 10-cycle grace period
with unavailable replicas, and the failure conditions decide the verdict
only when the converged exit has not fired first.  When the convergence
gate is closed, failed holds exactly when additionally some new pod of
the cycle's sample is errored, and the printed diagnostics list each
errored pod's name, phase and waiting/terminated message.  When the gate
holds but the stability re-check fails, the same characterization applies
to the re-sampled new pods.  When the gate holds and the re-check passes,
the cycle converges — preempting the failure exit even if every failure
condition holds. -/
theorem failure_exit_characterization :
    ∀ (uids : List String) (obs : PollObs) (r : Nat),
      (r ≤ 10 → (pollStep uids obs r).result ≠ StepResult.failed) ∧
      ((pollStep uids obs r).result = StepResult.failed →
        r > 10 ∧ obs.dep.unavailableReplicas > 0) ∧
      (¬convergenceGate uids obs →
        ((pollStep uids obs r).result = StepResult.failed ↔
          (r > 10 ∧ obs.dep.unavailableReplicas > 0 ∧
           findErrorPods (categorizePodsByUID obs.pods uids).1 ≠ []))) ∧
      (¬convergenceGate uids obs →
        (pollStep uids obs r).result = StepResult.failed →
        (pollStep uids obs r).diags =
          (findErrorPods (categorizePodsByUID obs.pods uids).1).map
            (fun pod => (pod.name, getPodStatus pod, getPodErrorMessage pod))) ∧
      (convergenceGate uids obs →
        countReadyAndHealthyPods obs.stabilityNow
          (categorizePodsByUID obs.stabilityPods uids).1 ≠ obs.dep.replicas →
        ((pollStep uids obs r).result = StepResult.failed ↔
          (r > 10 ∧ obs.dep.unavailableReplicas > 0 ∧
           findErrorPods (categorizePodsByUID obs.stabilityPods uids).1 ≠ []))) ∧
      (convergenceGate uids obs →
        countReadyAndHealthyPods obs.stabilityNow
          (categorizePodsByUID obs.stabilityPods uids).1 = obs.dep.replicas →
        (pollStep uids obs r).result = StepResult.converged) := by
  intro uids obs r
  have hfail : (pollStep uids obs r).result = StepResult.failed →
      r > 10 ∧ obs.dep.unavailableReplicas > 0 := by
    intro hres
    by_cases h : convergenceGate uids obs
    · rw [pollStep_of_gate uids obs r h] at hres
      by_cases h2 : countReadyAndHealthyPods obs.stabilityNow
          (categorizePodsByUID obs.stabilityPods uids).1 = obs.dep.replicas
      · rw [if_pos h2] at hres
        exact absurd hres (by simp)
      · rw [if_neg h2] at hres
        have := (failureCheck_result_iff obs.dep _ r).mp hres
        exact ⟨this.2.1, this.1⟩
    · rw [pollStep_of_not_gate uids obs r h] at hres
      have := (failureCheck_result_iff obs.dep _ r).mp hres
      exact ⟨this.2.1, this.1⟩
  refine ⟨?_, hfail, ?_, ?_, ?_, ?_⟩
  · intro hle hres
    exact absurd (hfail hres).1 (by omega)
  · intro h
    rw [pollStep_of_not_gate uids obs r h, failureCheck_result_iff]
    tauto
  · intro h hres
    rw [pollStep_of_not_gate uids obs r h] at hres ⊢
    exact failureCheck_diags_eq obs.dep _ r hres
  · intro h h2
    rw [pollStep_of_gate uids obs r h, if_neg h2, failureCheck_result_iff]
    tauto
  · intro h h2
    rw [pollStep_of_gate uids obs r h, if_pos h2]

/-- C1 (counterexample): a run in which the convergence condition holds at
the first poll and the stability re-sample fails the zero-old-pods
conjunct (an old pod is present again), yet the converged verdict is
emitted: the code's re-check discards the re-sampled old pods and compares
only the healthy-new count. -/
theorem stability_hold_counterexample :
    monitorPodRollout ["uid-old"] (fun _ => obsResampleOld) = RolloutVerdict.converged ∧
    (categorizePodsByUID obsResampleOld.stabilityPods ["uid-old"]).2.length ≠ 0 := by
  constructor
  · have hstep : (pollStep ["uid-old"] obsResampleOld 1).result = StepResult.converged := by
      decide
    rw [monitorPodRollout, monitorFrom_eq]
    simp [maxRetries, hstep]
  · decide

/-- C1 (amended): on a poll whose convergence gate (healthy-new count
equal to desired and zero old pods) holds, the monitor holds for the
extra delay and re-samples once; the converged verdict is emitted iff the
re-sampled healthy-new count again equals the desired count — the
re-sampled old pods are not re-checked; on a failed re-check the cycle
does not converge and the loop resumes. -/
theorem stability_hold_recheck :
    ∀ (uids : List String) (obs : PollObs) (r : Nat),
      convergenceGate uids obs →
      ((pollStep uids obs r).result = StepResult.converged ↔
        countReadyAndHealthyPods obs.stabilityNow
          (categorizePodsByUID obs.stabilityPods uids).1 = obs.dep.replicas) := by
  intro uids obs r h
  rw [pollStep_of_gate uids obs r h]
  by_cases h2 : countReadyAndHealthyPods obs.stabilityNow
      (categorizePodsByUID obs.stabilityPods uids).1 = obs.dep.replicas
  · rw [if_pos h2]
    exact ⟨fun _ => h2, fun _ => rfl⟩
  · rw [if_neg h2]
    exact ⟨fun hc => absurd hc (failureCheck_result_ne_converged _ _ _),
           fun hc => absurd hc h2⟩

/-- Closed instance of `stability_hold_recheck`: with a confirming
re-sample the cycle converges. -/
theorem stability_hold_recheck_witness :
    (pollStep ["uid-old"] obsStable 1).result = StepResult.converged :=
  (stability_hold_recheck ["uid-old"] obsStable 1 (by decide)).mpr (by decide)

/-- C5: the monitor performs at most `maxRetries = 120` poll cycles — its
verdict depends only on the observations of polls 1..120 — and when every
one of those cycles neither converges nor fails it returns the timed-out
verdict, which is distinct from failed and from converged. -/
theorem monitor_bounded :
    ∀ (uids : List String) (obs obs2 : Nat → PollObs),
      ((∀ r, 1 ≤ r → r ≤ maxRetries → obs r = obs2 r) →
        monitorPodRollout uids obs = monitorPodRollout uids obs2) ∧
      ((∀ r, 1 ≤ r → r ≤ maxRetries →
          (pollStep uids (obs r) r).result = StepResult.continueWatching) →
        monitorPodRollout uids obs = RolloutVerdict.timedOut) ∧
      maxRetries = 120 ∧
      RolloutVerdict.timedOut ≠ RolloutVerdict.failed ∧
      RolloutVerdict.timedOut ≠ RolloutVerdict.converged := by
  intro uids obs obs2
  refine ⟨?_, ?_, rfl, by simp, by simp⟩
  · intro hagree
    exact monitorFrom_congr uids obs obs2 maxRetries 0 (by omega)
      (fun r h1 h2 => hagree r (by omega) h2)
  · intro hcont
    exact monitorFrom_timeout uids obs maxRetries 0 (by omega)
      (fun r h1 h2 => hcont r (by omega) h2)

/-- Closed instance of `monitor_bounded`: a run that never converges nor
fails ends timed-out. -/
theorem monitor_bounded_witness :
    monitorPodRollout [] (fun _ => obsQuietA) = RolloutVerdict.timedOut :=
  (monitor_bounded [] (fun _ => obsQuietA) (fun _ => obsQuietA)).2.1
    (fun r _ _ => by
      rw [pollStep_of_not_gate _ _ _ (by decide)]
      unfold failureCheck
      rw [if_neg (by simp [obsQuietA])])

/-- C3 (counterexample): a run whose poll 11 satisfies every condition of
the original failure claim — retry counter 11 > 10, one unavailable
replica, a crash-looping (errored) new pod — yet the convergence branch
fires first (one healthy new pod meets the desired count of one, no old
pods, re-check passes), so the verdict is converged, not failed. -/
theorem failure_exit_counterexample :
    ((10 : Nat) < 11 ∧ (obsCEx 11).dep.unavailableReplicas > 0 ∧
      findErrorPods (categorizePodsByUID (obsCEx 11).pods []).1 ≠ []) ∧
    monitorPodRollout [] obsCEx = RolloutVerdict.converged ∧
    monitorPodRollout [] obsCEx ≠ RolloutVerdict.failed := by
  have hrun : monitorPodRollout [] obsCEx = RolloutVerdict.converged := by
    rw [monitorPodRollout]
    refine monitorFrom_converges_at [] obsCEx 10 0 10 (by omega) (by omega)
      (by decide) ?_ (by decide)
    intro r h1 h2
    have he : obsCEx r = obsWait := by
      unfold obsCEx
      rw [if_pos (by omega)]
    rw [he, pollStep_of_not_gate _ _ _ (by decide)]
    unfold failureCheck
    rw [if_neg (fun hc => by omega)]
  exact ⟨by decide, hrun, by rw [hrun]; simp⟩

/-- Closed instance of `failure_exit_characterization`: past the grace
period, with an unavailable replica and a crash-looping new pod, the
cycle fails. -/
theorem failure_exit_witness :
    (pollStep [] obsFail 11).result = StepResult.failed :=
  ((failure_exit_characterization [] obsFail 11).2.2.1 (by decide)).mpr (by decide)

/-- Closed instance of `restartStorm_rule`: restart count 4 with the last
restart 3600 seconds ago is healthy. -/
theorem restartStorm_rule_witness :
    isPodReadyAndHealthy 100000 podStormOld = true :=
  (restartStorm_rule.1 100000 podStormOld rfl (by decide) (by decide)).mpr (by decide)

/-- Closed instance of `restart_sentinel`. -/
theorem restart_sentinel_witness :
    timeFromLastRestart 5 csNoRecord = 1000 ∧
    (decide (csNoRecord.restartCount > 3) &&
      decide (timeFromLastRestart 5 csNoRecord < 60)) = false :=
  restart_sentinel 5 csNoRecord (Or.inl rfl)

/-- Closed instance of `emptyContainers_disagreement`. -/
theorem emptyContainers_disagreement_witness :
    isPodReadyAndHealthy 0 podNoContainers = true ∧
    areAllContainersReady podNoContainers = false :=
  emptyContainers_disagreement 0 podNoContainers rfl rfl (by decide)

/-- C8: when the Jenkins build ends unsuccessfully, the run aborts with
the build-failure verdict whose log embeds the full console output between
failure markers and the final build-failure line, and the rollout monitor
is never invoked (the outcome is independent of every cluster
observation); rollout monitoring runs exactly on a successful build. -/
theorem build_gate :
    ∀ (b : BuildHandle) (uids : List String) (obs obs2 : Nat → PollObs),
      (b.isGood = false →
        runDeploy b uids obs = runDeploy b uids obs2 ∧
        ∃ s, runDeploy b uids obs = RunOutcome.buildFailure s ∧
          List.IsInfix b.console.data s.data ∧
          List.IsInfix ("Build failed: " ++ b.result).data s.data) ∧
      (b.isGood = true →
        runDeploy b uids obs = RunOutcome.rollout (monitorPodRollout uids obs)) := by
  intro b uids obs obs2
  constructor
  · intro hbad
    have hrun : ∀ (o : Nat → PollObs), runDeploy b uids o =
        RunOutcome.buildFailure
          ("=============Build Failed Log=============\n" ++ b.console ++
           "\n=============Build Failed Log=============\n" ++
           "Build failed: " ++ b.result) := by
      intro o
      unfold runDeploy buildJenkinsJob
      rw [hbad]
      rfl
    refine ⟨by rw [hrun obs, hrun obs2], _, hrun obs, ?_, ?_⟩
    · exact ⟨"=============Build Failed Log=============\n".data,
        ("\n=============Build Failed Log=============\n" ++
         "Build failed: " ++ b.result).data,
        by simp [String.data_append, List.append_assoc]⟩
    · exact ⟨("=============Build Failed Log=============\n" ++ b.console ++
         "\n=============Build Failed Log=============\n").data, [],
        by simp [String.data_append, List.append_assoc]⟩
  · intro hgood
    unfold runDeploy buildJenkinsJob
    rw [hgood]
    rfl

/-- Closed instance of `build_gate`: a failed build yields a build-failure
verdict carrying the console output, independently of the cluster
observations. -/
theorem build_gate_witness :
    runDeploy bFailEx [] (fun _ => obsQuietA) = runDeploy bFailEx [] (fun _ => obsResampleOld) ∧
    ∃ s, runDeploy bFailEx [] (fun _ => obsQuietA) = RunOutcome.buildFailure s ∧
      List.IsInfix bFailEx.console.data s.data ∧
      List.IsInfix ("Build failed: " ++ bFailEx.result).data s.data :=
  (build_gate bFailEx [] (fun _ => obsQuietA) (fun _ => obsResampleOld)).1 rfl

end Deploy
